import Mathlib

/-!
Shallow embedding of the waPC WebAssembly host runtime (crate `wapc`,
files `src/lib.rs`, `src/callbacks.rs`, `src/errors.rs`, `src/modreg.rs`)
together with proofs about its documented behavior.

Modelling conventions:
* Rust byte buffers (`Vec<u8>`, guest linear memory) are `List Nat`.
* Machine integers: wasm `i32` values are `Int`; the `u64` instance counter
  is a `Nat` reduced modulo `2 ^ 64` exactly where the Rust `AtomicU64`
  wraps.
* Fallible Rust code returns `Except`/`Option`; a Rust `panic!`/`unwrap`
  failure and a wasmtime `Trap` are the `panicked`/`trap` constructors of
  `HRes`.
* The external collaborators (wasmtime engine, tea_codec serializer) are
  explicit parameters: a compiled module is a `WasmModule` value whose
  instantiation result and exports are data, and the codec is a function
  argument `ser`.
-/

namespace Wapc

/-- Bytes of guest memory and of waPC payloads (`Vec<u8>` / `&[u8]`). -/
abbrev Bytes := List Nat

/-- Model of the external `tea_codec::error::TeaError` type.  Only the
`CommonError` variant is built by the embedded code itself
(`callbacks.rs` line 182); `Other` stands for the remaining variants so
that the type is not artificially degenerate. -/
inductive TeaError where
  | CommonError (msg : String)
  | Other (code : Nat) (msg : String)
  deriving DecidableEq, Repr

/-- Model of the conversion `String → tea error` performed by the
`.into()` calls on string literals in `lib.rs` (for example line 258). -/
def strErr (s : String) : TeaError := .CommonError s

/-- The five error kinds of `errors.rs` (`ErrorKind`); `lib.rs` produces
only the `WasmMisc` and `GuestCallFailure` kinds.  `IOErr` models the
kind spelled `IO` in the source. -/
inductive WapcError where
  | NoSuchFunction (name : String)
  | IOErr (msg : String)
  | WasmMisc (msg : String)
  | HostCallFailure (e : TeaError)
  | GuestCallFailure (e : TeaError)
  deriving DecidableEq, Repr

/-- `Invocation` from `lib.rs` lines 106-110. -/
structure Invocation where
  operation : String
  msg : Bytes
  deriving DecidableEq, Repr

/-- `Invocation::new` (`lib.rs` lines 112-119). -/
def Invocation.new (op : String) (msg : Bytes) : Invocation :=
  { operation := op, msg := msg }

/-- The host callback signature (`lib.rs` lines 99-102). -/
abbrev HostCallback := Nat → String → String → String → Bytes → Except TeaError Bytes

/-- The log callback signature (`lib.rs` line 104). -/
abbrev LogCallback := Nat → String → Except TeaError Unit

/-- `ModuleState` from `callbacks.rs` lines 13-23, with the `Default`
field values of the derived instance. -/
structure ModuleState where
  guest_request : Option Invocation := none
  guest_response : Option Bytes := none
  host_response : Option Bytes := none
  guest_error : Option TeaError := none
  host_error : Option TeaError := none
  host_callback : Option HostCallback := none
  log_callback : Option LogCallback := none
  id : Nat := 0

/-- `ModuleState::new` (`callbacks.rs` lines 26-33). -/
def ModuleState.new (id : Nat) (host_callback : HostCallback) : ModuleState :=
  { id := id, host_callback := some host_callback, log_callback := none }

/-- `ModuleState::new_with_logger` (`callbacks.rs` lines 35-46). -/
def ModuleState.new_with_logger (id : Nat) (host_callback : HostCallback)
    (log_callback : LogCallback) : ModuleState :=
  { id := id, host_callback := some host_callback, log_callback := some log_callback }

/-- `WasiParams` (`lib.rs` lines 122-129). -/
structure WasiParams where
  argv : List String := []
  map_dirs : List (String × String) := []
  env_vars : List (String × String) := []
  preopened_dirs : List String := []

/-- Result of a host-side import handler: normal return, a wasmtime
`Trap` carried back to the guest, or a Rust panic (`unwrap` failure or
out-of-bounds slice index inside the closure). -/
inductive HRes (α : Type) where
  | panicked
  | trap (msg : String)
  | ok (a : α)

/-- Reduce a `usize` byte count to a wasm `i32` value
(the `as i32` casts at `lib.rs` line 249). -/
def i32ofNat (n : Nat) : Int :=
  let r : Nat := n % 2 ^ 32
  if r < 2 ^ 31 then (r : Int) else (r : Int) - 2 ^ 32

/-- `get_vec_from_memory` (`callbacks.rs` lines 381-392): the slice
`data[ptr as usize..(ptr + len) as usize]`.  An out-of-range or
inverted slice panics in Rust, modelled by `none`; a negative `ptr` or
`len` becomes a huge `usize` and is likewise out of range. -/
def readBytes (mem : Bytes) (ptr len : Int) : Option Bytes :=
  if 0 ≤ ptr ∧ 0 ≤ len ∧ ptr + len ≤ (mem.length : Int) then
    some ((mem.drop ptr.toNat).take len.toNat)
  else none

/-- `write_bytes_to_memory` (`callbacks.rs` lines 394-404): the loop
`data[idx + ptr as usize] = slice[idx]` for `idx < slice.len()`.  An
index beyond the memory panics, modelled by `none`. -/
def writeBytes (mem : Bytes) (ptr : Int) (buf : Bytes) : Option Bytes :=
  if 0 ≤ ptr ∧ ptr.toNat + buf.length ≤ mem.length then
    some (mem.take ptr.toNat ++ buf ++ mem.drop (ptr.toNat + buf.length))
  else none

/-- Is `c` a UTF-8 continuation byte (`0x80..0xBF`)? -/
def contByte (c : Nat) : Bool := 0x80 ≤ c && c < 0xC0

/-- UTF-8 decoding as enforced by `std::str::from_utf8`: rejects
overlong encodings, surrogate code points and values above `0x10FFFF`. -/
def utf8DecodeChars : List Nat → Option (List Char)
  | [] => some []
  | b :: rest =>
    if b < 0x80 then
      match utf8DecodeChars rest with
      | some cs => some (Char.ofNat b :: cs)
      | none => none
    else if b < 0xC2 then none
    else if b < 0xE0 then
      match rest with
      | c1 :: rest1 =>
        if contByte c1 then
          match utf8DecodeChars rest1 with
          | some cs => some (Char.ofNat ((b - 0xC0) * 0x40 + (c1 - 0x80)) :: cs)
          | none => none
        else none
      | [] => none
    else if b < 0xF0 then
      match rest with
      | c1 :: c2 :: rest2 =>
        let lo1 := if b = 0xE0 then 0xA0 else 0x80
        let hi1 := if b = 0xED then 0xA0 else 0xC0
        if (lo1 ≤ c1 && c1 < hi1) && contByte c2 then
          match utf8DecodeChars rest2 with
          | some cs =>
            some (Char.ofNat ((b - 0xE0) * 0x1000 + (c1 - 0x80) * 0x40 + (c2 - 0x80)) :: cs)
          | none => none
        else none
      | _ => none
    else if b < 0xF5 then
      match rest with
      | c1 :: c2 :: c3 :: rest3 =>
        let lo1 := if b = 0xF0 then 0x90 else 0x80
        let hi1 := if b = 0xF4 then 0x90 else 0xC0
        if ((lo1 ≤ c1 && c1 < hi1) && contByte c2) && contByte c3 then
          match utf8DecodeChars rest3 with
          | some cs =>
            some (Char.ofNat
              ((b - 0xF0) * 0x40000 + (c1 - 0x80) * 0x1000 + (c2 - 0x80) * 0x40 + (c3 - 0x80)) :: cs)
          | none => none
        else none
      | _ => none
    else none

/-- `std::str::from_utf8` returning a `String` on success. -/
def utf8Decode? (bs : Bytes) : Option String :=
  (utf8DecodeChars bs).map fun cs => String.mk cs

/-- The guest export `__guest_call` as seen by the host: the wasmtime
`Func` cached in the `WapcHost`.  `typedErr` is `some e` when the
`typed::<(i32, i32), i32, _>` conversion at `lib.rs` line 245 fails;
`run` is the invocation itself, mutating the shared `ModuleState`
(through the nine imports) and returning the `i32` result or an engine
error (`lib.rs` lines 247-251). -/
structure GuestFunc where
  typedErr : Option String := none
  run : ModuleState → Int → Int → ModuleState × Except String Int

/-- A wasmtime `Instance` restricted to the two exports the embedded
code resolves: `__guest_call` (`lib.rs` line 365) and `_start`
(`lib.rs` line 349).  `startRun` mutates the shared state (the `_start`
function may reenter the host imports) or fails. -/
structure WasmInstance where
  guestCallExport : Option GuestFunc := none
  startExport : Option (ModuleState → Except String ModuleState) := none

/-- A compiled WebAssembly module together with the (deterministic)
result of `linker.instantiate` on it (`lib.rs` lines 332-334): the
engine either produces an instance or fails with a message. -/
structure WasmModule where
  instantiateRes : Except String WasmInstance

/-- `WapcHost` (`lib.rs` lines 153-159).  The `Store<ModuleRegistry>`
holds no claim-relevant data beyond the shared state, so the
`store` field only records the `Option` shell of the source field. -/
structure WapcHost where
  state : ModuleState
  store : Option Unit
  inst : Option WasmInstance
  wasidata : Option WasiParams
  guest_call_fn : GuestFunc

/-- `WapcHost::instance_from_buffer` (`lib.rs` lines 303-336), reduced
to its sole claim-relevant failure: `linker.instantiate` mapped to
`WasmMisc` (line 334).  Compilation panics (`unwrap` at line 324) and
WASI setup are not modelled. -/
def instance_from_buffer (m : WasmModule) : Except WapcError WasmInstance :=
  match m.instantiateRes with
  | .ok inst => .ok inst
  | .error e => .error (.WasmMisc ("wasmtime instantiate failed: " ++ e))

/-- `guest_call_fn` (`lib.rs` lines 364-370): resolve the
`__guest_call` export or fail. -/
def guest_call_fn (inst : WasmInstance) : Except WapcError GuestFunc :=
  match inst.guestCallExport with
  | some f => .ok f
  | none => .error (.GuestCallFailure (strErr "Guest module did not export __guest_call function!"))

/-- Events observable during host construction / hot swap. -/
inductive HostEvent where
  | startInvoked
  deriving DecidableEq, Repr

/-- `WapcHost::initialize` (`lib.rs` lines 338-359): invoke `_start`
when exported, mapping failure to `GuestCallFailure`; the returned
event list records whether `_start` ran. -/
def invokeStartTr (inst : WasmInstance) (st : ModuleState) :
    Except WapcError ModuleState × List HostEvent :=
  match inst.startExport with
  | some s =>
    (match s st with
     | .ok st' => .ok st'
     | .error _ => .error (.GuestCallFailure (strErr "Error invoking _start function!")),
     [.startInvoked])
  | none => (.ok st, [])

/-- `WapcHost::new` (`lib.rs` lines 163-183); `id` is the value drawn
from the global counter (see `counterState`).  The event list records
whether `_start` was invoked. -/
def newHostTr (id : Nat) (cb : HostCallback) (m : WasmModule) (wasi : Option WasiParams) :
    Except WapcError WapcHost × List HostEvent :=
  let st := ModuleState.new id cb
  match instance_from_buffer m with
  | .error e => (.error e, [])
  | .ok inst =>
    match guest_call_fn inst with
    | .error e => (.error e, [])
    | .ok gc =>
      match invokeStartTr inst st with
      | (.ok st', evs) =>
        (.ok { state := st', store := some (), inst := some inst,
               wasidata := wasi, guest_call_fn := gc }, evs)
      | (.error e, evs) => (.error e, evs)

/-- `WapcHost::new_with_logger` (`lib.rs` lines 187-212). -/
def newWithLoggerTr (id : Nat) (cb : HostCallback) (lg : LogCallback) (m : WasmModule)
    (wasi : Option WasiParams) : Except WapcError WapcHost × List HostEvent :=
  let st := ModuleState.new_with_logger id cb lg
  match instance_from_buffer m with
  | .error e => (.error e, [])
  | .ok inst =>
    match guest_call_fn inst with
    | .error e => (.error e, [])
    | .ok gc =>
      match invokeStartTr inst st with
      | (.ok st', evs) =>
        (.ok { state := st', store := some (), inst := some inst,
               wasidata := wasi, guest_call_fn := gc }, evs)
      | (.error e, evs) => (.error e, evs)

/-- `WapcHost::replace_module` (`lib.rs` lines 290-301): rebuild store
and instance from the new bytes with the WASI parameters captured at
construction, then run `initialize`.  The source never assigns to the
`guest_call_fn` field (the method takes `&self` and the field is not
behind a `RefCell`), so the returned host keeps the old cached export
unchanged. -/
def replace_module (h : WapcHost) (m : WasmModule) :
    Except WapcError WapcHost × List HostEvent :=
  match instance_from_buffer m with
  | .error e => (.error e, [])
  | .ok newInst =>
    match invokeStartTr newInst h.state with
    | (.ok st', evs) =>
      (.ok { h with state := st', store := some (), inst := some newInst }, evs)
    | (.error e, evs) => (.error e, evs)

/-- The state mutation at the start of `WapcHost::call`
(`lib.rs` lines 229-236): publish the new request and clear both
result fields of any previous call. -/
def preCallState (st : ModuleState) (op : String) (payload : Bytes) : ModuleState :=
  { st with guest_response := none,
            guest_request := some (Invocation.new op payload),
            guest_error := none }

/-- Interpretation of the `i32` returned by `__guest_call`
(`lib.rs` lines 253-273). -/
def interpretCallResult (callresult : Int) (st : ModuleState) : Except WapcError Bytes :=
  if callresult = 0 then
    match st.guest_error with
    | some s => .error (.GuestCallFailure s)
    | none => .error (.GuestCallFailure (strErr "No error message set for call failure"))
  else
    match st.guest_response with
    | some e => .ok e
    | none =>
      match st.guest_error with
      | some s => .error (.GuestCallFailure s)
      | none => .error (.GuestCallFailure (strErr "No error message OR response set for call success"))

/-- `WapcHost::call` (`lib.rs` lines 228-274).  Returns the call result
together with the `ModuleState` after the call (the shared state the
mutated host keeps).  Note `op.utf8ByteSize` models `operation.len()`
on a Rust `String` (a byte count). -/
def WapcHost.call (h : WapcHost) (op : String) (payload : Bytes) :
    Except WapcError Bytes × ModuleState :=
  let st1 := preCallState h.state op payload
  match h.store with
  | none => (.error (.WasmMisc "failed to get store"), st1)
  | some _ =>
    match h.guest_call_fn.typedErr with
    | some e => (.error (.WasmMisc ("convert typed guest call fn failed: " ++ e)), st1)
    | none =>
      match h.guest_call_fn.run st1 (i32ofNat op.utf8ByteSize) (i32ofNat payload.length) with
      | (st2, .error e) => (.error (.WasmMisc ("guest call failed: " ++ e)), st2)
      | (st2, .ok callresult) => (interpretCallResult callresult st2, st2)

/-- The `__host_call` import handler (`callbacks.rs` lines 119-208).
At the start both `host_response` and `host_error` are cleared
(lines 139-141); the payload and the three UTF-8 strings are read from
guest memory in source order (payload, binding, namespace, operation;
an out-of-range slice or a `from_utf8(..).unwrap()` failure panics);
then the host callback (or the missing-callback error) decides the
result stored back into the state and the returned `i32`
(lines 179-196). -/
def host_call_run (st0 : ModuleState) (mem : Bytes)
    (bd_ptr bd_len ns_ptr ns_len op_ptr op_len ptr len : Int) :
    HRes (ModuleState × Int) :=
  let st := { st0 with host_response := none, host_error := none }
  match readBytes mem ptr len with
  | none => .panicked
  | some vec =>
    match readBytes mem bd_ptr bd_len with
    | none => .panicked
    | some bd_vec =>
      match utf8Decode? bd_vec with
      | none => .panicked
      | some bd =>
        match readBytes mem ns_ptr ns_len with
        | none => .panicked
        | some ns_vec =>
          match utf8Decode? ns_vec with
          | none => .panicked
          | some ns =>
            match readBytes mem op_ptr op_len with
            | none => .panicked
            | some op_vec =>
              match utf8Decode? op_vec with
              | none => .panicked
              | some op =>
                let result :=
                  match st.host_callback with
                  | some f => f st.id bd ns op vec
                  | none => .error (TeaError.CommonError "missing host callback function")
                match result with
                | .ok invresp => .ok ({ st with host_response := some invresp }, 1)
                | .error e => .ok ({ st with host_error := some e }, 0)

/-- The `__console_log` import handler (`callbacks.rs` lines 83-117):
read the message bytes, decode them with `from_utf8(..).unwrap()`
(panic on invalid UTF-8), then deliver to the log callback with
`f(id, msg).unwrap()` (panic on `Err`) or, with no callback installed,
to the `info!` sink. -/
def console_log_run (st : ModuleState) (mem : Bytes) (ptr len : Int) : HRes Unit :=
  match readBytes mem ptr len with
  | none => .panicked
  | some vec =>
    match utf8Decode? vec with
    | none => .panicked
    | some msg =>
      match st.log_callback with
      | some f =>
        match f st.id msg with
        | .ok _ => .ok ()
        | .error _ => .panicked
      | none => .ok ()

/-- The `__host_error` import handler (`callbacks.rs` lines 311-341):
when `host_error` is set, serialize it with the external codec `ser`
(codec failure traps) and write the bytes to `ptr`; otherwise do
nothing.  Returns the guest memory after the call. -/
def host_error_run (st : ModuleState) (ser : TeaError → Except String Bytes)
    (mem : Bytes) (ptr : Int) : HRes Bytes :=
  match st.host_error with
  | some e =>
    match ser e with
    | .error m => .trap ("serialize host error failed: " ++ m)
    | .ok buf =>
      match writeBytes mem ptr buf with
      | some mem2 => .ok mem2
      | none => .panicked
  | none => .ok mem

/-- The `__host_error_len` import handler (`callbacks.rs` lines
343-372): when `host_error` is set, serialize it with `ser` (codec
failure traps) and return the length as an `i32` (`try_into` traps
when the length exceeds `i32::MAX`); otherwise return 0. -/
def host_error_len_run (st : ModuleState) (ser : TeaError → Except String Bytes) : HRes Int :=
  match st.host_error with
  | some e =>
    match ser e with
    | .error m => .trap ("serialize host error failed: " ++ m)
    | .ok buf =>
      if buf.length ≤ 0x7FFFFFFF then .ok (buf.length : Int)
      else .trap "try convert host error len failed"
  | none => .ok 0

/-- The process-wide instance counter `GLOBAL_MODULE_COUNT`
(`lib.rs` line 81): an `AtomicU64` seeded at 1.  `counterState k` is
its value after `k` calls of `fetch_add(1, SeqCst)`; the addition
wraps modulo `2 ^ 64` as the Rust atomic does. -/
def counterState : Nat → Nat
  | 0 => 1
  | k + 1 => (counterState k + 1) % 2 ^ 64

/-- The id handed to the `k`-th constructed `WapcHost` (0-based):
`fetch_add` returns the value before the increment
(`lib.rs` lines 168 and 193). -/
def allocId (k : Nat) : Nat := counterState k

/-- Borrow events of one import handler against the `RefCell<ModuleState>`,
plus the invocations of user-supplied callbacks. -/
inductive BEvent where
  | acqRead
  | acqWrite
  | relRead
  | relWrite
  | userCall
  deriving DecidableEq, Repr

/-- The pairs (live read borrows, live write borrows) observed at each
`userCall` event of a trace. -/
def liveAtUserCalls (r w : Nat) : List BEvent → List (Nat × Nat)
  | [] => []
  | .acqRead :: t => liveAtUserCalls (r + 1) w t
  | .acqWrite :: t => liveAtUserCalls r (w + 1) t
  | .relRead :: t => liveAtUserCalls (r - 1) w t
  | .relWrite :: t => liveAtUserCalls r (w - 1) t
  | .userCall :: t => (r, w) :: liveAtUserCalls r w t

/-- Every user callback in the trace runs with no live borrow of
`ModuleState` (the discipline demanded by the specification). -/
def borrowFreeAtUserCalls (tr : List BEvent) : Bool :=
  (liveAtUserCalls 0 0 tr).all fun p => p.1 == 0 && p.2 == 0

/-- Every user callback in the trace runs with no live write borrow. -/
def writeFreeAtUserCalls (tr : List BEvent) : Bool :=
  (liveAtUserCalls 0 0 tr).all fun p => p.2 == 0

/-- The trace invokes no user callback at all. -/
def noUserCall (tr : List BEvent) : Bool :=
  liveAtUserCalls 0 0 tr == []

/-- Borrow trace of `guest_request_func` (`callbacks.rs` lines 49-81):
`let invocation = &state.borrow().guest_request;` at line 60 extends
the read borrow to the end of the closure body; the guest-memory
writes happen under it; no user callback. -/
def guest_request_trace : List BEvent := [.acqRead, .relRead]

/-- Borrow trace of `console_log_func` (`callbacks.rs` lines 83-117):
line 96 takes and drops a read borrow for `id`; the `match` scrutinee
`caller.data().state.borrow().log_callback` at line 99 holds a read
borrow as a match-scrutinee temporary until the end of the `match`, so
the log callback at line 101 runs under it. -/
def console_log_trace : List BEvent :=
  [.acqRead, .relRead, .acqRead, .userCall, .relRead]

/-- Borrow trace of `host_call_func` (`callbacks.rs` lines 119-208):
lines 138-143 take and drop a write borrow inside an explicit block;
the `match` scrutinee `caller.data().state.borrow().host_callback` at
line 180 holds a read borrow as a match-scrutinee temporary until the
end of the statement at line 186, so the host callback at line 181
runs under it; lines 189 and 193 take and drop a write borrow. -/
def host_call_trace : List BEvent :=
  [.acqWrite, .relWrite, .acqRead, .userCall, .relRead, .acqWrite, .relWrite]

/-- Borrow trace of `guest_response_func` (`callbacks.rs` lines
258-281): one write borrow, no user callback. -/
def guest_response_trace : List BEvent := [.acqWrite, .relWrite]

/-- Borrow trace of `guest_error_func` (`callbacks.rs` lines 283-309):
one write borrow, no user callback. -/
def guest_error_trace : List BEvent := [.acqWrite, .relWrite]

/-- Borrow trace of `host_response_func` (`callbacks.rs` lines
210-233): a read borrow held (if-let scrutinee temporary) over the
guest-memory write, no user callback. -/
def host_response_trace : List BEvent := [.acqRead, .relRead]

/-- Borrow trace of `host_response_len_func` (`callbacks.rs` lines
235-256): a read borrow in the match scrutinee, no user callback. -/
def host_response_len_trace : List BEvent := [.acqRead, .relRead]

/-- Borrow trace of `host_error_func` (`callbacks.rs` lines 311-341):
a read borrow held (if-let scrutinee temporary) over the serialize and
the guest-memory write, no user callback. -/
def host_error_trace : List BEvent := [.acqRead, .relRead]

/-- Borrow trace of `host_error_len_func` (`callbacks.rs` lines
343-372): a read borrow in the match scrutinee over the serialize, no
user callback. -/
def host_error_len_trace : List BEvent := [.acqRead, .relRead]

/-- A guest function that ignores its input state except for writing a
constant response and returning success; used to compare hot swap with
fresh construction on concrete modules. -/
def constGuest (resp : Bytes) : GuestFunc :=
  { run := fun st _ _ => ({ st with guest_response := some resp }, .ok 1) }

/-- A module whose instance exports a `__guest_call` answering with the
constant response `resp` and exports no `_start`. -/
def constModule (resp : Bytes) : WasmModule :=
  ⟨.ok { guestCallExport := some (constGuest resp) }⟩

/-- A trivial host callback for the concrete scenarios. -/
def cb0 : HostCallback := fun _ _ _ _ _ => .ok []

/-- The host obtained by constructing on `constModule [97]` and then
hot-swapping to `constModule [98]`. -/
def hostAfterSwap : Option WapcHost :=
  match (newHostTr 1 cb0 (constModule [97]) none).1 with
  | .ok h =>
    match (replace_module h (constModule [98])).1 with
    | .ok h' => some h'
    | .error _ => none
  | .error _ => none

/-- The host obtained by fresh construction on `constModule [98]`. -/
def freshHost98 : Option WapcHost :=
  match (newHostTr 2 cb0 (constModule [98]) none).1 with
  | .ok h => some h
  | .error _ => none

/-- C2: interpretation of the guest call result.  When `__guest_call`
returns 0: `GuestCallFailure(guest_error)` if set, else the fixed
failure message.  When it returns nonzero: `Ok(guest_response)` if set
(regardless of `guest_error`), else `GuestCallFailure(guest_error)` if
set, else the fixed success-without-response message. -/
theorem c2_call_result_interpretation (r : Int) (st : ModuleState) :
    (r = 0 → ∀ e, st.guest_error = some e →
      interpretCallResult r st = .error (.GuestCallFailure e)) ∧
    (r = 0 → st.guest_error = none →
      interpretCallResult r st =
        .error (.GuestCallFailure (strErr "No error message set for call failure"))) ∧
    (r ≠ 0 → ∀ resp, st.guest_response = some resp →
      interpretCallResult r st = .ok resp) ∧
    (r ≠ 0 → st.guest_response = none → ∀ e, st.guest_error = some e →
      interpretCallResult r st = .error (.GuestCallFailure e)) ∧
    (r ≠ 0 → st.guest_response = none → st.guest_error = none →
      interpretCallResult r st =
        .error (.GuestCallFailure (strErr "No error message OR response set for call success"))) := by
  refine ⟨?_, ?_, ?_, ?_, ?_⟩ <;> intros <;> simp [interpretCallResult, *]

/-- Witness for C2 at a concrete failing state. -/
theorem c2_call_result_interpretation_witness :
    interpretCallResult 0 { guest_error := some (strErr "boom") } =
      .error (.GuestCallFailure (strErr "boom")) :=
  (c2_call_result_interpretation 0 { guest_error := some (strErr "boom") }).1 rfl
    (strErr "boom") rfl

/-- C7: immediately before `__guest_call` is invoked, the state passed
to the guest satisfies `guest_request = some (Invocation op payload)`,
`guest_response = none` and `guest_error = none` — the result fields of
any previous call are cleared and the request is overwritten.
(`WapcHost.call` applies `h.guest_call_fn.run` to exactly
`preCallState h.state op payload`.) -/
theorem c7_pre_call_state (st : ModuleState) (op : String) (payload : Bytes) :
    (preCallState st op payload).guest_request = some (Invocation.new op payload) ∧
    (preCallState st op payload).guest_response = none ∧
    (preCallState st op payload).guest_error = none :=
  ⟨rfl, rfl, rfl⟩

/-- C3: `__host_call` postcondition.  The incoming values of
`host_response` and `host_error` are irrelevant (both are cleared at
the start); every normal return carries exactly one of the two fields
set, with the `i32` result signalling which; with a callback installed
the response or error is exactly the callback result; with no callback
the error is `missing host callback function` and 0 is returned. -/
theorem c3_host_call_postcondition (st : ModuleState) (mem : Bytes)
    (bd_ptr bd_len ns_ptr ns_len op_ptr op_len ptr len : Int) :
    (host_call_run st mem bd_ptr bd_len ns_ptr ns_len op_ptr op_len ptr len =
      host_call_run { st with host_response := none, host_error := none }
        mem bd_ptr bd_len ns_ptr ns_len op_ptr op_len ptr len) ∧
    (∀ st' r,
      host_call_run st mem bd_ptr bd_len ns_ptr ns_len op_ptr op_len ptr len = .ok (st', r) →
      ((∃ v, st'.host_response = some v ∧ st'.host_error = none ∧ r = 1) ∨
       (∃ e, st'.host_error = some e ∧ st'.host_response = none ∧ r = 0))) ∧
    (∀ f vec bdv nsv opv bd ns op,
      st.host_callback = some f →
      readBytes mem ptr len = some vec →
      readBytes mem bd_ptr bd_len = some bdv → utf8Decode? bdv = some bd →
      readBytes mem ns_ptr ns_len = some nsv → utf8Decode? nsv = some ns →
      readBytes mem op_ptr op_len = some opv → utf8Decode? opv = some op →
      (∀ v, f st.id bd ns op vec = .ok v →
        host_call_run st mem bd_ptr bd_len ns_ptr ns_len op_ptr op_len ptr len =
          .ok ({ st with host_response := some v, host_error := none }, 1)) ∧
      (∀ e, f st.id bd ns op vec = .error e →
        host_call_run st mem bd_ptr bd_len ns_ptr ns_len op_ptr op_len ptr len =
          .ok ({ st with host_response := none, host_error := some e }, 0))) ∧
    (∀ vec bdv nsv opv bd ns op,
      st.host_callback = none →
      readBytes mem ptr len = some vec →
      readBytes mem bd_ptr bd_len = some bdv → utf8Decode? bdv = some bd →
      readBytes mem ns_ptr ns_len = some nsv → utf8Decode? nsv = some ns →
      readBytes mem op_ptr op_len = some opv → utf8Decode? opv = some op →
      host_call_run st mem bd_ptr bd_len ns_ptr ns_len op_ptr op_len ptr len =
        .ok ({ st with host_response := none,
                       host_error := some (TeaError.CommonError "missing host callback function") },
             0)) := by
  refine ⟨rfl, ?_, ?_, ?_⟩
  · intro st' r hres
    simp only [host_call_run] at hres
    rcases h1 : readBytes mem ptr len with _ | vec <;> simp only [h1] at hres
    · exact absurd hres (by simp)
    rcases h2 : readBytes mem bd_ptr bd_len with _ | bdv <;> simp only [h2] at hres
    · exact absurd hres (by simp)
    rcases h3 : utf8Decode? bdv with _ | bd <;> simp only [h3] at hres
    · exact absurd hres (by simp)
    rcases h4 : readBytes mem ns_ptr ns_len with _ | nsv <;> simp only [h4] at hres
    · exact absurd hres (by simp)
    rcases h5 : utf8Decode? nsv with _ | ns <;> simp only [h5] at hres
    · exact absurd hres (by simp)
    rcases h6 : readBytes mem op_ptr op_len with _ | opv <;> simp only [h6] at hres
    · exact absurd hres (by simp)
    rcases h7 : utf8Decode? opv with _ | op <;> simp only [h7] at hres
    · exact absurd hres (by simp)
    rcases hcb : st.host_callback with _ | f <;> simp only [hcb] at hres
    · simp only [HRes.ok.injEq, Prod.mk.injEq] at hres
      obtain ⟨rfl, rfl⟩ := hres
      exact Or.inr ⟨_, rfl, rfl, rfl⟩
    · rcases hf : f st.id bd ns op vec with e | v <;> simp only [hf] at hres <;>
        simp only [HRes.ok.injEq, Prod.mk.injEq] at hres
      · obtain ⟨rfl, rfl⟩ := hres
        exact Or.inr ⟨_, rfl, rfl, rfl⟩
      · obtain ⟨rfl, rfl⟩ := hres
        exact Or.inl ⟨_, rfl, rfl, rfl⟩
  · intro f vec bdv nsv opv bd ns op hf hv hbd hbdd hns hnsd hop hopd
    constructor <;> intro x hx <;>
      simp [host_call_run, hv, hbd, hbdd, hns, hnsd, hop, hopd, hf, hx]
  · intro vec bdv nsv opv bd ns op hf hv hbd hbdd hns hnsd hop hopd
    simp [host_call_run, hv, hbd, hbdd, hns, hnsd, hop, hopd, hf]

/-- Witness for C3: an echoing host callback on empty inputs. -/
theorem c3_host_call_postcondition_witness :
    host_call_run { host_callback := some fun _ _ _ _ p => .ok p } [] 0 0 0 0 0 0 0 0 =
      .ok ({ host_callback := some fun _ _ _ _ p => .ok p, host_response := some [],
             host_error := none }, 1) := by
  have h := ((c3_host_call_postcondition { host_callback := some fun _ _ _ _ p => .ok p }
      [] 0 0 0 0 0 0 0 0).2.2.1 (fun _ _ _ _ p => .ok p) [] [] [] [] "" "" ""
      rfl (by decide) (by decide) (by decide) (by decide) (by decide) (by decide)
      (by decide)).1 [] rfl
  simpa using h

/-- C10: `__console_log` failure behavior.  Invalid UTF-8 in the bytes
read from guest memory panics (the `unwrap`), an installed log
callback returning `Err` panics (the second `unwrap`), the handler
never produces a `Trap`, and a normal return happens exactly when the
bytes were read, decoded as UTF-8, and the callback (if any)
succeeded. -/
theorem c10_console_log_panics (st : ModuleState) (mem : Bytes) (ptr len : Int) :
    (∀ vec, readBytes mem ptr len = some vec → utf8Decode? vec = none →
      console_log_run st mem ptr len = .panicked) ∧
    (∀ vec msg f e, readBytes mem ptr len = some vec → utf8Decode? vec = some msg →
      st.log_callback = some f → f st.id msg = .error e →
      console_log_run st mem ptr len = .panicked) ∧
    (∀ m, console_log_run st mem ptr len ≠ .trap m) ∧
    (console_log_run st mem ptr len = .ok () ↔
      ∃ vec msg, readBytes mem ptr len = some vec ∧ utf8Decode? vec = some msg ∧
        (st.log_callback = none ∨
         ∃ f, st.log_callback = some f ∧ ∃ u, f st.id msg = .ok u)) := by
  refine ⟨?_, ?_, ?_, ?_⟩
  · intro vec hv hm
    simp [console_log_run, hv, hm]
  · intro vec msg f e hv hm hl hf
    simp [console_log_run, hv, hm, hl, hf]
  · intro m
    unfold console_log_run
    rcases h1 : readBytes mem ptr len with _ | vec <;> simp only [h1]
    · simp
    rcases h2 : utf8Decode? vec with _ | msg <;> simp only [h2]
    · simp
    rcases h3 : st.log_callback with _ | f <;> simp only [h3]
    · simp
    rcases h4 : f st.id msg with e | u <;> simp only [h4] <;> simp
  · cases hv : readBytes mem ptr len with
    | none => simp [console_log_run, hv]
    | some vec =>
      cases hm : utf8Decode? vec with
      | none => simp [console_log_run, hv, hm]
      | some msg =>
        cases hl : st.log_callback with
        | none => simp [console_log_run, hv, hm, hl]
        | some f =>
          cases hf : f st.id msg with
          | ok u => simp [console_log_run, hv, hm, hl, hf]
          | error e => simp [console_log_run, hv, hm, hl, hf]

/-- Witness for C10: the single byte `0xFF` is not valid UTF-8, so the
handler panics. -/
theorem c10_console_log_panics_witness :
    console_log_run { } [0xFF] 0 1 = .panicked :=
  (c10_console_log_panics { } [0xFF] 0 1).1 [0xFF] (by decide) (by decide)

/-- C5: `__host_error_len` and `__host_error` agree.  With
`host_error = some e` and the (deterministic, function-valued) codec
producing `buf`, the length import reports `buf.length` and the write
handler writes exactly `buf` at `ptr`, leaving the rest of guest memory
unchanged; with `host_error = none` the length is 0 and memory is
untouched. -/
theorem c5_host_error_agreement (st : ModuleState) (ser : TeaError → Except String Bytes)
    (mem : Bytes) (ptr : Int) :
    (∀ e buf, st.host_error = some e → ser e = .ok buf → buf.length ≤ 0x7FFFFFFF →
      host_error_len_run st ser = .ok (buf.length : Int) ∧
      (0 ≤ ptr → ptr.toNat + buf.length ≤ mem.length →
        ∃ mem2, host_error_run st ser mem ptr = .ok mem2 ∧
          mem2.length = mem.length ∧
          readBytes mem2 ptr (buf.length : Int) = some buf ∧
          mem2.take ptr.toNat = mem.take ptr.toNat ∧
          mem2.drop (ptr.toNat + buf.length) = mem.drop (ptr.toNat + buf.length))) ∧
    (st.host_error = none →
      host_error_len_run st ser = .ok 0 ∧ host_error_run st ser mem ptr = .ok mem) := by
  constructor
  · intro e buf he hs hlen
    constructor
    · simp [host_error_len_run, he, hs, hlen]
    · intro hptr hbound
      have hwrite : writeBytes mem ptr buf =
          some (mem.take ptr.toNat ++ buf ++ mem.drop (ptr.toNat + buf.length)) := by
        simp [writeBytes, hptr, hbound]
      refine ⟨mem.take ptr.toNat ++ buf ++ mem.drop (ptr.toNat + buf.length),
        by simp [host_error_run, he, hs, hwrite], ?_, ?_, ?_, ?_⟩
      · simp [List.length_append, List.length_take, List.length_drop]
        omega
      · have hlen2 : (mem.take ptr.toNat ++ buf ++
            mem.drop (ptr.toNat + buf.length)).length = mem.length := by
          simp [List.length_append, List.length_take, List.length_drop]
          omega
        have htk : (mem.take ptr.toNat).length = ptr.toNat := by
          simp [List.length_take]; omega
        unfold readBytes
        rw [if_pos]
        · congr 1
          rw [List.append_assoc, List.drop_left' htk, Int.toNat_natCast]
          exact List.take_left' rfl
        · refine ⟨hptr, by positivity, ?_⟩
          rw [hlen2]
          omega
      · have htk : (mem.take ptr.toNat).length = ptr.toNat := by
          simp [List.length_take]; omega
        calc (mem.take ptr.toNat ++ buf ++ mem.drop (ptr.toNat + buf.length)).take ptr.toNat
            = ((mem.take ptr.toNat ++ (buf ++ mem.drop (ptr.toNat + buf.length))).take
                (mem.take ptr.toNat).length) := by rw [htk, List.append_assoc]
          _ = mem.take ptr.toNat := List.take_left _ _
      · have htk : (mem.take ptr.toNat ++ buf).length = ptr.toNat + buf.length := by
          simp [List.length_append, List.length_take]; omega
        calc (mem.take ptr.toNat ++ buf ++ mem.drop (ptr.toNat + buf.length)).drop
              (ptr.toNat + buf.length)
            = ((mem.take ptr.toNat ++ buf) ++ mem.drop (ptr.toNat + buf.length)).drop
                (mem.take ptr.toNat ++ buf).length := by rw [htk]
          _ = mem.drop (ptr.toNat + buf.length) := List.drop_left _ _
  · intro he
    exact ⟨by simp [host_error_len_run, he], by simp [host_error_run, he]⟩

/-- Witness for C5: a two-byte serialization written into a three-byte
memory at offset 0. -/
theorem c5_host_error_agreement_witness :
    host_error_len_run { host_error := some (strErr "x") } (fun _ => .ok [1, 2]) = .ok 2 ∧
    host_error_run { host_error := some (strErr "x") } (fun _ => .ok [1, 2]) [5, 6, 7] 0 =
      .ok [1, 2, 7] := by
  have h := (c5_host_error_agreement { host_error := some (strErr "x") }
      (fun _ => .ok [1, 2]) [5, 6, 7] 0).1 (strErr "x") [1, 2] rfl rfl (by norm_num)
  obtain ⟨mem2, hrun, hlen, hread, htake, hdrop⟩ := h.2 (by norm_num) (by norm_num)
  refine ⟨by simpa using h.1, ?_⟩
  rw [hrun]
  have : mem2 = [1, 2, 7] := by
    have h5 : writeBytes [5, 6, 7] 0 [1, 2] = some [1, 2, 7] := by decide
    simp [host_error_run, h5] at hrun
    exact hrun.symm
  rw [this]

/-- C6: a module whose instance does not export `__guest_call` makes
both `WapcHost::new` and `WapcHost::new_with_logger` fail with
`GuestCallFailure("Guest module did not export __guest_call function!")`,
and `_start` is never invoked. -/
theorem c6_missing_guest_call_export (id : Nat) (cb : HostCallback) (lg : LogCallback)
    (m : WasmModule) (wasi : Option WasiParams) (inst : WasmInstance)
    (hinst : m.instantiateRes = .ok inst) (hexp : inst.guestCallExport = none) :
    (newHostTr id cb m wasi).1 =
      .error (.GuestCallFailure (strErr "Guest module did not export __guest_call function!")) ∧
    HostEvent.startInvoked ∉ (newHostTr id cb m wasi).2 ∧
    (newWithLoggerTr id cb lg m wasi).1 =
      .error (.GuestCallFailure (strErr "Guest module did not export __guest_call function!")) ∧
    HostEvent.startInvoked ∉ (newWithLoggerTr id cb lg m wasi).2 := by
  have h1 : instance_from_buffer m = .ok inst := by simp [instance_from_buffer, hinst]
  refine ⟨?_, ?_, ?_, ?_⟩ <;>
    simp [newHostTr, newWithLoggerTr, h1, guest_call_fn, hexp]

/-- Witness for C6 on a concrete export-free module. -/
theorem c6_missing_guest_call_export_witness :
    (newHostTr 1 cb0 ⟨.ok { }⟩ none).1 =
      .error (.GuestCallFailure (strErr "Guest module did not export __guest_call function!")) :=
  (c6_missing_guest_call_export 1 cb0 (fun _ _ => .ok ()) ⟨.ok { }⟩ none { } rfl rfl).1

/-- Helper for C9: every error produced by `interpretCallResult` is a
`GuestCallFailure`. -/
theorem interpretCallResult_error_kind (r : Int) (st : ModuleState) (e : WapcError)
    (h : interpretCallResult r st = .error e) : ∃ t, e = .GuestCallFailure t := by
  unfold interpretCallResult at h
  by_cases hr : r = 0 <;> simp [hr] at h
  · rcases hge : st.guest_error with _ | s <;> simp [hge] at h <;> exact ⟨_, h.symm⟩
  · rcases hgr : st.guest_response with _ | v <;> simp [hgr] at h
    rcases hge : st.guest_error with _ | s <;> simp [hge] at h <;> exact ⟨_, h.symm⟩

/-- C9: call error taxonomy.  Every error returned by `WapcHost::call`
is of kind `WasmMisc` or `GuestCallFailure`. -/
theorem c9_call_error_taxonomy (h : WapcHost) (op : String) (payload : Bytes) (e : WapcError)
    (hc : (WapcHost.call h op payload).1 = .error e) :
    (∃ s, e = .WasmMisc s) ∨ (∃ t, e = .GuestCallFailure t) := by
  simp only [WapcHost.call] at hc
  rcases hst : h.store with _ | u <;> rw [hst] at hc
  · simp at hc
    exact .inl ⟨_, hc.symm⟩
  · rcases hty : h.guest_call_fn.typedErr with _ | msg <;> rw [hty] at hc
    · rcases hrun : h.guest_call_fn.run (preCallState h.state op payload)
          (i32ofNat op.utf8ByteSize) (i32ofNat payload.length) with ⟨st2, res⟩
      rw [hrun] at hc
      rcases res with emsg | c
      · simp at hc
        exact .inl ⟨_, hc.symm⟩
      · simp at hc
        exact .inr (interpretCallResult_error_kind c st2 e hc)
    · simp at hc
      exact .inl ⟨_, hc.symm⟩

/-- Witness for C9: a host whose store slot is empty yields a
`WasmMisc` error. -/
theorem c9_call_error_taxonomy_witness :
    (∃ s, WapcError.WasmMisc "failed to get store" = .WasmMisc s) ∨
    (∃ t, WapcError.WasmMisc "failed to get store" = .GuestCallFailure t) :=
  c9_call_error_taxonomy
    { state := { }, store := none, inst := none, wasidata := none,
      guest_call_fn := constGuest [0] }
    "op" [] (.WasmMisc "failed to get store") rfl

/-- Helper for C8: the counter after `k` allocations. -/
theorem counterState_eq (k : Nat) : counterState k = (1 + k) % 2 ^ 64 := by
  induction k with
  | zero =>
    rw [counterState]
    rw [Nat.mod_eq_of_lt (by norm_num)]
  | succ k ih =>
    rw [counterState, ih, Nat.mod_add_mod]
    congr 1

/-- C8 counterexample: the `AtomicU64` wraps, so the id of allocation
`2 ^ 64` equals the id of allocation 0 — ids are not pairwise distinct
over arbitrary allocation sequences. -/
theorem c8_counterexample : allocId 0 = allocId (2 ^ 64) ∧ 0 ≠ 2 ^ 64 := by
  constructor
  · rw [allocId, allocId, counterState_eq, counterState_eq]
    simp [Nat.add_mod_right]
  · norm_num

/-- C8 (amended): the counter is seeded at 1 and, for any process
creating fewer than `2 ^ 64 - 1` hosts, ids are strictly increasing in
allocation order and pairwise distinct (never reused). -/
theorem c8_id_allocation (i j : Nat) (hij : i < j) (hj : j < 2 ^ 64 - 1) :
    allocId 0 = 1 ∧ allocId i < allocId j ∧ allocId i ≠ allocId j := by
  have hi' : allocId i = 1 + i := by
    rw [allocId, counterState_eq, Nat.mod_eq_of_lt (by omega)]
  have hj' : allocId j = 1 + j := by
    rw [allocId, counterState_eq, Nat.mod_eq_of_lt (by omega)]
  refine ⟨?_, ?_, ?_⟩
  · rw [allocId, counterState_eq, Nat.mod_eq_of_lt (by norm_num)]
  · omega
  · omega

/-- Witness for C8 at the first two allocations. -/
theorem c8_id_allocation_witness :
    allocId 0 = 1 ∧ allocId 0 < allocId 1 ∧ allocId 0 ≠ allocId 1 :=
  c8_id_allocation 0 1 (by norm_num) (by norm_num)

/-- C4 counterexample: `host_call_func` invokes the host callback while
the read borrow taken in the `match` scrutinee at `callbacks.rs` line
180 is still live, so the borrow discipline claimed for all nine
handlers fails. -/
theorem c4_counterexample : borrowFreeAtUserCalls host_call_trace = false := by decide

/-- C4 (amended): no import handler holds a write borrow of
`ModuleState` across a user callback, and seven of the nine handlers
invoke no user callback at all; but `host_call_func` and
`console_log_func` each run their user callback under exactly one live
read borrow (the match-scrutinee temporary). -/
theorem c4_borrow_discipline_amended :
    writeFreeAtUserCalls guest_request_trace = true ∧
    writeFreeAtUserCalls console_log_trace = true ∧
    writeFreeAtUserCalls host_call_trace = true ∧
    writeFreeAtUserCalls guest_response_trace = true ∧
    writeFreeAtUserCalls guest_error_trace = true ∧
    writeFreeAtUserCalls host_response_trace = true ∧
    writeFreeAtUserCalls host_response_len_trace = true ∧
    writeFreeAtUserCalls host_error_trace = true ∧
    writeFreeAtUserCalls host_error_len_trace = true ∧
    noUserCall guest_request_trace = true ∧
    noUserCall guest_response_trace = true ∧
    noUserCall guest_error_trace = true ∧
    noUserCall host_response_trace = true ∧
    noUserCall host_response_len_trace = true ∧
    noUserCall host_error_trace = true ∧
    noUserCall host_error_len_trace = true ∧
    liveAtUserCalls 0 0 host_call_trace = [(1, 0)] ∧
    liveAtUserCalls 0 0 console_log_trace = [(1, 0)] := by decide

/-- C1: hot-swap behavior on concrete modules.  `replace_module` keeps
the stale cached `__guest_call` (third conjunct), so a call on the
swapped host still answers with the old module response `[97]`
while a freshly constructed host on the new module answers `[98]`. -/
theorem c1_replace_module_stale_export :
    (hostAfterSwap.map fun h => (h.call "op" []).1) = some (.ok [97]) ∧
    (freshHost98.map fun h => (h.call "op" []).1) = some (.ok [98]) ∧
    (hostAfterSwap.map fun h => h.guest_call_fn) = some (constGuest [97]) :=
  ⟨rfl, rfl, rfl⟩

end Wapc
